import Mathlib

/-!
Shallow embedding of the FabricDB storage engine (C sources under src/), used to
check the natural-language specification against the code.

Conventions of the embedding:
* machine integers are modelled as `Nat` with explicit `% 2^w` wherever the C
  code can overflow or truncate;
* the backing file is a total map from byte offset to byte value
  (`ByteFile := Nat → Nat`);
* the host byte order is an explicit parameter (`Endian`), because several of
  the C functions behave differently on little- and big-endian hosts;
* the byte-order shim (`htobe32`, `betoh32`, `betoh16`) lives in
  `../ByteOrder/byteorder.h`, which is part of the repository but not included
  under src/.  It is modelled from the spec (section 4.1: a portable big-endian
  read/write helper): on a big-endian host the conversions are the identity, on
  a little-endian host they swap bytes.
-/

namespace FabricDB

/-- Host byte order, an explicit parameter of the embedding. -/
inductive Endian where
  | little
  | big
deriving DecidableEq

/-- Byte swap of a 16-bit value. -/
def bswap16 (v : Nat) : Nat := (v % 256) * 256 + (v / 256 % 256)

/-- Byte swap of a 32-bit value. -/
def bswap32 (v : Nat) : Nat :=
  (v % 256) * 2 ^ 24 + (v / 2 ^ 8 % 256) * 2 ^ 16 + (v / 2 ^ 16 % 256) * 2 ^ 8 +
    v / 2 ^ 24 % 256

/-- Modelled from the spec: the byte-order shim in ../ByteOrder/byteorder.h
(not under src/).  `htobe32` converts a host-order 32-bit value to big-endian:
identity on a big-endian host, byte swap on a little-endian host. -/
def htobe32 (e : Endian) (v : Nat) : Nat :=
  match e with
  | .big => v % 2 ^ 32
  | .little => bswap32 v

/-- Modelled from the spec: big-endian to host order, 32-bit (inverse of
`htobe32`, same computation). -/
def betoh32 (e : Endian) (v : Nat) : Nat := htobe32 e v

/-- Modelled from the spec: big-endian to host order, 16-bit. -/
def betoh16 (e : Endian) (v : Nat) : Nat :=
  match e with
  | .big => v % 2 ^ 16
  | .little => bswap16 v

/-- Memory representation of a `uint16_t` value on a host with byte order `e`:
the two bytes in the order they appear in memory. -/
def hostBytes16 (e : Endian) (v : Nat) : List Nat :=
  match e with
  | .little => [v % 256, v / 256 % 256]
  | .big => [v / 256 % 256, v % 256]

/-- Memory representation of a `uint32_t` value on a host with byte order `e`. -/
def hostBytes32 (e : Endian) (v : Nat) : List Nat :=
  match e with
  | .little => [v % 256, v / 2 ^ 8 % 256, v / 2 ^ 16 % 256, v / 2 ^ 24 % 256]
  | .big => [v / 2 ^ 24 % 256, v / 2 ^ 16 % 256, v / 2 ^ 8 % 256, v % 256]

/-- Value obtained by loading two bytes as a `uint16_t` on a host with byte
order `e` (models `*(uint16_t*)bytes`). -/
def hostLoad16 (e : Endian) (b0 b1 : Nat) : Nat :=
  match e with
  | .little => b0 % 256 + b1 % 256 * 256
  | .big => b0 % 256 * 256 + b1 % 256

/-- Value obtained by loading four bytes as a `uint32_t` on a host with byte
order `e`. -/
def hostLoad32 (e : Endian) (b0 b1 b2 b3 : Nat) : Nat :=
  match e with
  | .little => b0 % 256 + b1 % 256 * 2 ^ 8 + b2 % 256 * 2 ^ 16 + b3 % 256 * 2 ^ 24
  | .big => b0 % 256 * 2 ^ 24 + b1 % 256 * 2 ^ 16 + b2 % 256 * 2 ^ 8 + b3 % 256

/-- The graph file, as a total map from byte offset to byte value. -/
def ByteFile : Type := Nat → Nat

/-- The all-zero file. -/
def zeroFile : ByteFile := fun _ => 0

/-- Embeds Fabric_Graph_write_bytes (Graph.c:92-114) at an explicit offset: the
bytes of the list are stored at consecutive offsets starting at `off`. -/
def Fabric_Graph_write_bytes (f : ByteFile) (bytes : List Nat) (off : Nat) : ByteFile :=
  fun i =>
    if off ≤ i ∧ i < off + bytes.length then bytes.getD (i - off) 0 else f i

/-- Embeds Fabric_Graph_read_bytes (Graph.c:159-177) at an explicit offset. -/
def Fabric_Graph_read_bytes (f : ByteFile) (numBytes off : Nat) : List Nat :=
  (List.range numBytes).map fun i => f (off + i) % 256

/-- Embeds Fabric_Graph_write_uint32 (Graph.c:124-131): the value is converted
with htobe32 and the memory representation of the resulting `uint32_t` is
written to the file. -/
def Fabric_Graph_write_uint32 (e : Endian) (f : ByteFile) (value off : Nat) : ByteFile :=
  Fabric_Graph_write_bytes f (hostBytes32 e (htobe32 e (value % 2 ^ 32))) off

/-- Embeds Fabric_Graph_write_uint16 (Graph.c:141-148).  The source computes
`uint16_t network_order_value = htobe32(value);`: the 32-BIT conversion of the
16-bit value, truncated back to 16 bits by the assignment, whose two memory
bytes are then written. -/
def Fabric_Graph_write_uint16 (e : Endian) (f : ByteFile) (value off : Nat) : ByteFile :=
  Fabric_Graph_write_bytes f (hostBytes16 e (htobe32 e (value % 2 ^ 16) % 2 ^ 16)) off

/-- Embeds Fabric_Graph_read_uint32 (Graph.c:189-198): four bytes are read,
loaded as a host `uint32_t`, and converted with betoh32. -/
def Fabric_Graph_read_uint32 (e : Endian) (f : ByteFile) (off : Nat) : Nat :=
  betoh32 e (hostLoad32 e (f off) (f (off + 1)) (f (off + 2)) (f (off + 3)))

/-- Embeds Fabric_Graph_read_uint16 (Graph.c:209-218): two bytes are read,
loaded as a host `uint16_t`, and converted with betoh16. -/
def Fabric_Graph_read_uint16 (e : Endian) (f : ByteFile) (off : Nat) : Nat :=
  betoh16 e (hostLoad16 e (f off) (f (off + 1)))

/-! Error codes from Internal.h. -/

def FABRIC_OK : Nat := 0x00000000

def FABRIC_ERROR : Nat := 0x00000001

def FABRIC_CLASSSTORE_INVALID_ID : Nat := 0x00000101

def FABRIC_CLASS_DOESNT_EXIST : Nat := 0x00000102

def FABRIC_DUPLICATE_CLASSNAME : Nat := 0x00000103

def FABRIC_CANT_DELETE_CLASS_HAS_CHILDREN : Nat := 0x00000104

def FABRIC_CANT_DELETE_CLASS_HAS_MEMBERS : Nat := 0x00000105

def FABRIC_CLASSSTORE_NEEDS_RESIZE : Nat := 0x00000110

def FABRIC_CLASS_INVALID_ID : Nat := 0x00001101

/-- In-memory class record, embedding `struct Class` (Class.c:51-62).  All
fields are natural numbers standing for the C unsigned integers of the
respective widths (id, parent, first child, next child, first index: uint16;
label id, count, incrementer: uint32; is_abstract: uint8). -/
structure ClassRec where
  id : Nat
  labelId : Nat
  parentId : Nat
  firstChildId : Nat
  nextChildId : Nat
  firstIndexId : Nat
  count : Nat
  isAbstract : Nat
  incrementer : Nat
deriving DecidableEq

/-- Embeds Fabric_Class_load_bytes (Class.c:134-143), the 21-byte encoder.  The
source stores each field through a plain pointer cast (for example
`*((labelid_t*)dest) = self->label_id;`) with NO byte-order conversion, so the
bytes written are the HOST-order memory representation of each field. -/
def Fabric_Class_load_bytes (e : Endian) (c : ClassRec) : List Nat :=
  hostBytes32 e c.labelId ++ hostBytes16 e c.parentId ++ hostBytes16 e c.firstChildId ++
    hostBytes16 e c.nextChildId ++ hostBytes16 e c.firstIndexId ++ hostBytes32 e c.count ++
    [c.isAbstract % 256] ++ hostBytes32 e c.incrementer

/-- Embeds Fabric_Class_init (Class.c:116-132), the 21-byte decoder: it fails
with FABRIC_CLASS_INVALID_ID when the id is below 1, and otherwise reads each
field with a host pointer load followed by betoh32/betoh16, i.e. it interprets
the stored bytes as big-endian. -/
def Fabric_Class_init (e : Endian) (id : Nat) (data : List Nat) : Except Nat ClassRec :=
  if id < 1 then .error FABRIC_CLASS_INVALID_ID
  else
    .ok
      { id := id
        labelId := betoh32 e (hostLoad32 e (data.getD 0 0) (data.getD 1 0) (data.getD 2 0) (data.getD 3 0))
        parentId := betoh16 e (hostLoad16 e (data.getD 4 0) (data.getD 5 0))
        firstChildId := betoh16 e (hostLoad16 e (data.getD 6 0) (data.getD 7 0))
        nextChildId := betoh16 e (hostLoad16 e (data.getD 8 0) (data.getD 9 0))
        firstIndexId := betoh16 e (hostLoad16 e (data.getD 10 0) (data.getD 11 0))
        count := betoh32 e (hostLoad32 e (data.getD 12 0) (data.getD 13 0) (data.getD 14 0) (data.getD 15 0))
        isAbstract := data.getD 16 0 % 256
        incrementer := betoh32 e (hostLoad32 e (data.getD 17 0) (data.getD 18 0) (data.getD 19 0) (data.getD 20 0)) }

/-! The id set (IdSet.c), the hash set used for the dirty-id set of each
store.  It is embedded concretely (slot array, Jenkins hash, linear probing,
tombstones) because the iteration order of Fabric_IdSet_to_array decides how
Fabric_ClassStore_flush walks the dirty ids. -/

def FABRIC_IDSET_TOMBSTONE : Nat := 0x11111111

/-- Embeds one step of the Jenkins one-at-a-time loop body (Hash.c:14-18), on
32-bit unsigned arithmetic. -/
def jenkinsStep (h b : Nat) : Nat :=
  let h := (h + b % 256) % 2 ^ 32
  let h := (h + h * 2 ^ 10) % 2 ^ 32
  h ^^^ h / 2 ^ 6

/-- Embeds hash (Hash.c:12-23): the Jenkins one-at-a-time hash of a byte
sequence. -/
def jenkinsHash (bytes : List Nat) : Nat :=
  let h := bytes.foldl jenkinsStep 0
  let h := (h + h * 2 ^ 3) % 2 ^ 32
  let h := h ^^^ h / 2 ^ 11
  (h + h * 2 ^ 15) % 2 ^ 32

/-- Embeds hash_uint32 (Hash.c:25-27): the Jenkins hash of the four bytes of
the key as laid out in HOST memory order, hence the endianness parameter. -/
def hash_uint32 (e : Endian) (key : Nat) : Nat :=
  jenkinsHash (hostBytes32 e key)

/-- Embeds `struct IdSet` (IdSet.c:24-28): element count, capacity, and the
slot array (0 = empty slot, 0x11111111 = tombstone). -/
structure IdSetM where
  count : Nat
  cap : Nat
  ids : List Nat
deriving DecidableEq

/-- A fresh id set of capacity `cap` with all slots zeroed
(Fabric_IdSet_new_with_capacity, IdSet.c:42-67; the default capacity is 32). -/
def idSetNew (cap : Nat) : IdSetM :=
  { count := 0, cap := cap, ids := List.replicate cap 0 }

/-- Probe loop of Fabric_IdSet_has (IdSet.c:124-130): scan from `pos` while
slots are nonzero.  The fuel bounds the scan; the source loop terminates
because the load factor stays at or below 0.6, so a zero slot always exists. -/
def idSetHasProbe (s : IdSetM) (id : Nat) : Nat → Nat → Bool
  | 0, _ => false
  | fuel + 1, pos =>
    let v := s.ids.getD pos 0
    if v = 0 then false
    else if v = id then true
    else idSetHasProbe s id fuel ((pos + 1) % s.cap)

/-- Embeds Fabric_IdSet_has (IdSet.c:122-131). -/
def Fabric_IdSet_has (e : Endian) (s : IdSetM) (id : Nat) : Bool :=
  idSetHasProbe s id s.cap (hash_uint32 e id % s.cap)

/-- Probe loop of Fabric_IdSet__add_no_checks (IdSet.c:139-141): find the first
slot that is empty or a tombstone. -/
def idSetAddProbe (s : IdSetM) : Nat → Nat → Nat
  | 0, pos => pos
  | fuel + 1, pos =>
    let v := s.ids.getD pos 0
    if v ≠ 0 ∧ v ≠ FABRIC_IDSET_TOMBSTONE then idSetAddProbe s fuel ((pos + 1) % s.cap)
    else pos

/-- Embeds Fabric_IdSet__add_no_checks (IdSet.c:137-145). -/
def Fabric_IdSet__add_no_checks (e : Endian) (s : IdSetM) (id : Nat) : IdSetM :=
  let pos := idSetAddProbe s s.cap (hash_uint32 e id % s.cap)
  { count := s.count + 1, cap := s.cap, ids := s.ids.set pos id }

/-- Embeds Fabric_IdSet__resize (IdSet.c:150-175): reinsert every live entry of
the old array, in slot order, into a zeroed array of the new capacity. -/
def Fabric_IdSet__resize (e : Endian) (s : IdSetM) (newCap : Nat) : IdSetM :=
  s.ids.foldl
    (fun t v =>
      if v ≠ 0 ∧ v ≠ FABRIC_IDSET_TOMBSTONE then Fabric_IdSet__add_no_checks e t v else t)
    (idSetNew newCap)

/-- Embeds Fabric_IdSet_add (IdSet.c:185-203).  The load check in the source is
`(float)(count+1)/cap > 0.6`; it is modelled as the exact rational comparison
`10 * (count+1) > 6 * cap`, which agrees with the float comparison at every
capacity the store uses (powers of two well away from the rounding boundary). -/
def Fabric_IdSet_add (e : Endian) (s : IdSetM) (id : Nat) : IdSetM :=
  if Fabric_IdSet_has e s id then s
  else
    let s := if 10 * (s.count + 1) > 6 * s.cap then Fabric_IdSet__resize e s (s.cap * 2) else s
    Fabric_IdSet__add_no_checks e s id

/-- Probe loop of Fabric_IdSet_remove (IdSet.c:213-221). -/
def idSetRemoveProbe (s : IdSetM) (id : Nat) : Nat → Nat → IdSetM
  | 0, _ => s
  | fuel + 1, pos =>
    let v := s.ids.getD pos 0
    if v = 0 then s
    else if v = id then
      { count := s.count - 1, cap := s.cap, ids := s.ids.set pos FABRIC_IDSET_TOMBSTONE }
    else idSetRemoveProbe s id fuel ((pos + 1) % s.cap)

/-- Embeds Fabric_IdSet_remove (IdSet.c:212-222): the found slot becomes a
tombstone and the count drops by one; an absent id leaves the set unchanged. -/
def Fabric_IdSet_remove (e : Endian) (s : IdSetM) (id : Nat) : IdSetM :=
  idSetRemoveProbe s id s.cap (hash_uint32 e id % s.cap)

/-- Embeds Fabric_IdSet_to_array (IdSet.c:237-256): collect the first `count`
entries that are neither empty nor tombstones, scanning slots in order. -/
def Fabric_IdSet_to_array (s : IdSetM) : List Nat :=
  (s.ids.filter fun v => v != 0 && v != FABRIC_IDSET_TOMBSTONE).take s.count

/-- Embeds Fabric_IdSet_is_empty (IdSet.c:102-104): `count <= 0`. -/
def Fabric_IdSet_is_empty (s : IdSetM) : Bool :=
  s.count = 0

/-! The class store (ClassStore.c).  `struct ClassStore` holds counters, the
cache (an EntityMap from id to an owned Class record, embedded as a finite map
`Nat → Option ClassRec`; EntityMap.c implements an ordinary hash map and only
fails on out-of-memory, which the embedding treats as never happening), the
dirty-id set, and — through the enclosing Graph — the backing file. -/

/-- Embeds `struct ClassStore` (ClassStore.c:26-35) together with the portion
of the graph file the store reads and writes. -/
structure ClassStoreM where
  offset : Nat
  numClasses : Nat
  nextFreeId : Nat
  lastFreeId : Nat
  size : Nat
  cache : Nat → Option ClassRec
  changed : IdSetM
  file : ByteFile

/-- Embeds FABRIC_CLASSSTORE_HEADER_SIZE (ClassStore.c:12). -/
def FABRIC_CLASSSTORE_HEADER_SIZE : Nat := 6

/-- Embeds FABRIC_CLASS_STORAGE_SIZE (Internal.h:38). -/
def FABRIC_CLASS_STORAGE_SIZE : Nat := 21

/-- Embeds Fabric_ClassStore__get_id_offset (ClassStore.c:64-66). -/
def Fabric_ClassStore__get_id_offset (s : ClassStoreM) (classId : Nat) : Nat :=
  (classId - 1) * FABRIC_CLASS_STORAGE_SIZE + s.offset + FABRIC_CLASSSTORE_HEADER_SIZE

/-- Embeds Fabric_ClassStore_init (ClassStore.c:45-59): the size is the label
store offset minus the own offset, and the three counters are read from the
store header with Fabric_Graph_read_uint16.  The cache and the changed set
start empty. -/
def Fabric_ClassStore_init (e : Endian) (f : ByteFile) (offset labelStoreOffset : Nat) :
    ClassStoreM :=
  { offset := offset
    numClasses := Fabric_Graph_read_uint16 e f offset
    nextFreeId := Fabric_Graph_read_uint16 e f (offset + 2)
    lastFreeId := Fabric_Graph_read_uint16 e f (offset + 4)
    size := (labelStoreOffset + 2 ^ 32 - offset) % 2 ^ 32
    cache := fun _ => none
    changed := idSetNew 32
    file := f }

/-- Embeds Fabric_ClassStore__next_id (ClassStore.c:138-157).  When the next
and last free ids agree, both uint16 counters are incremented (mod 2^16) and
the old value is returned.  Otherwise the link to the next free id is read from
the parent-id field of the freed record: from the cached record when the id is
in the cache, else from the file at the slot offset plus sizeof(labelid_t). -/
def Fabric_ClassStore__next_id (e : Endian) (s : ClassStoreM) : Nat × ClassStoreM :=
  let next_free_id := s.nextFreeId
  if s.nextFreeId = s.lastFreeId then
    (next_free_id,
      { s with
        nextFreeId := (s.nextFreeId + 1) % 2 ^ 16
        lastFreeId := (s.lastFreeId + 1) % 2 ^ 16 })
  else
    match s.cache next_free_id with
    | some c => (next_free_id, { s with nextFreeId := c.parentId })
    | none =>
      (next_free_id,
        { s with
          nextFreeId :=
            Fabric_Graph_read_uint16 e s.file (Fabric_ClassStore__get_id_offset s next_free_id + 4) })

/-- Embeds Fabric_ClassStore__add_free_id (ClassStore.c:159-164) as it is used
by Fabric_ClassStore_delete_class: there the record was just stored in the
cache (ClassStore.c:441), so setting its parent field to the old next-free id
updates the cached record, and the next-free id becomes the freed id. -/
def classStoreFreeCached (s : ClassStoreM) (c : ClassRec) : ClassStoreM :=
  { s with
    cache := fun k => if k = c.id then some { c with parentId := s.nextFreeId } else s.cache k
    nextFreeId := c.id }

/-- Embeds Fabric_ClassStore_get_class (ClassStore.c:176-214).  A cached record
is used directly; otherwise the id is bounds-checked, the 21-byte slot is read
and decoded, and the new record is inserted into the cache.  A record whose
label id is 0 is reported as FABRIC_CLASS_DOESNT_EXIST (note that a freshly
decoded dead record stays in the cache even then, as in the source).  The
decode-error branch is unreachable: the bounds check already ensured
classId ≥ 1, the only failure condition of Fabric_Class_init. -/
def Fabric_ClassStore_get_class (e : Endian) (s : ClassStoreM) (classId : Nat) :
    Except Nat ClassRec × ClassStoreM :=
  match s.cache classId with
  | some c =>
    if c.labelId ≠ 0 then (.ok c, s) else (.error FABRIC_CLASS_DOESNT_EXIST, s)
  | none =>
    let off := Fabric_ClassStore__get_id_offset s classId
    if off > s.size + s.offset ∨ classId < 1 then (.error FABRIC_CLASSSTORE_INVALID_ID, s)
    else
      let data := Fabric_Graph_read_bytes s.file FABRIC_CLASS_STORAGE_SIZE off
      match Fabric_Class_init e classId data with
      | .error st => (.error st, s)
      | .ok c =>
        let s := { s with cache := fun k => if k = classId then some c else s.cache k }
        if c.labelId ≠ 0 then (.ok c, s) else (.error FABRIC_CLASS_DOESNT_EXIST, s)

/-- Embeds Fabric_ClassStore_get_class_by_name (ClassStore.c:226-243), with
class names modelled as opaque keys (`Nat`).  Fabric_IndexStore_get_class_index
is a stub that sets the status to FABRIC_OK and returns NULL
(IndexStore.c:58-62).  The guard at ClassStore.c:230 reads
`if (FABRIC_OK != status)` — it compares the `error_t *status` POINTER itself
against the null pointer constant FABRIC_OK, not `*status` — so with the always
non-null status pointer the guard is true and the function returns NULL with
the status left at FABRIC_OK.  Lines 234-242 (the actual index lookup, itself a
stub returning 0, Index.c:55-59, whose guard at line 235 repeats the same
pointer comparison) are therefore unreachable. -/
def Fabric_ClassStore_get_class_by_name (s : ClassStoreM) (name : Nat) :
    Option ClassRec × Nat :=
  let statusPointerIsNonNull := true
  if statusPointerIsNonNull then (none, FABRIC_OK)
  else (none, FABRIC_CLASS_DOESNT_EXIST)

/-- Embeds Fabric_ClassStore_create_class (ClassStore.c:257-354) for the name
check at lines 276-284.  The lookup always yields NULL with status FABRIC_OK
(see Fabric_ClassStore_get_class_by_name), so the guard at line 282
(`FABRIC_CLASS_DOESNT_EXIST != *status`) is always true and the function
returns NULL with status FABRIC_OK without touching the store.  The remainder
(lines 286 onward — allocation, label creation, hierarchy wiring) is
unreachable and is represented by a sentinel result; note that line 286 would
in any case read the uninitialized local `is`. -/
def Fabric_ClassStore_create_class (s : ClassStoreM) (extends_ : ClassRec) (name : Nat)
    (isAbstract : Bool) : Option ClassRec × Nat × ClassStoreM :=
  match Fabric_ClassStore_get_class_by_name s name with
  | (some _, _) => (none, FABRIC_DUPLICATE_CLASSNAME, s)
  | (none, st) =>
    if FABRIC_CLASS_DOESNT_EXIST ≠ st then (none, st, s)
    else (none, FABRIC_ERROR, s)

/-- Walk of the sibling chain in Fabric_ClassStore_delete_class
(ClassStore.c:420-425): starting from the first child, follow next-sibling
links until reaching the record whose next sibling is the class being deleted.
Lookup errors propagate; the fuel returns `none` where the source would loop
without finding the class. -/
def deleteClassFindPred (e : Endian) (classId : Nat) :
    Nat → ClassStoreM → ClassRec → Option (Except Nat ClassRec × ClassStoreM)
  | 0, _, _ => none
  | fuel + 1, s, cur =>
    if cur.nextChildId = classId then some (.ok cur, s)
    else
      match Fabric_ClassStore_get_class e s cur.nextChildId with
      | (.error st, s1) => some (.error st, s1)
      | (.ok nxt, s1) => deleteClassFindPred e classId fuel s1 nxt

/-- Embeds Fabric_ClassStore_delete_class (ClassStore.c:375-456).

Control flow of the source, line by line:
* 387-390: a record not in use (label id 0) yields FABRIC_OK at once;
* 392-394: a nonzero first-child id yields FABRIC_CANT_DELETE_CLASS_HAS_CHILDREN;
* 396-398: a nonzero member count yields FABRIC_CANT_DELETE_CLASS_HAS_MEMBERS;
* 403-406: the parent record is fetched; errors propagate;
* 409-414: when the class is the first child, the parent record (cached, so
  the mutation at 410 is visible there) gets the next sibling of the class as
  its first child — and line 411 then stores the local `child_class`, still
  NULL, in the cache under the parent id; a NULL cache entry behaves as a
  cache miss on lookup, modelled by erasing the entry;
* 415-431: otherwise the predecessor in the sibling chain is found and line
  426 sets its next-sibling id to `class_id` — the id of the class being
  deleted, which the field already equals, NOT the next sibling of the class;
* 437-443: the class is removed from the (stub) class-name index
  (IndexStore.c:91-94, returns FABRIC_OK), the class id is added to the dirty
  set twice, the record is cached, and its label is released through the stub
  Fabric_LabelStore_remove_label (LabelStore.c:220-223, returns FABRIC_OK), so
  this chain never fails in the current source;
* 453-455: the id is pushed onto the free list and the uint16 live count is
  decremented.

The fuel bounds the sibling walk. -/
def Fabric_ClassStore_delete_class (e : Endian) (fuel : Nat) (s : ClassStoreM) (c : ClassRec) :
    Option (Nat × ClassStoreM) :=
  if c.labelId = 0 then some (FABRIC_OK, s)
  else if c.firstChildId ≠ 0 then some (FABRIC_CANT_DELETE_CLASS_HAS_CHILDREN, s)
  else if c.count > 0 then some (FABRIC_CANT_DELETE_CLASS_HAS_MEMBERS, s)
  else
    let classId := c.id
    match Fabric_ClassStore_get_class e s c.parentId with
    | (.error st, s1) => some (st, s1)
    | (.ok parent, s1) =>
      let afterHier :
          Option (Except (Nat × ClassStoreM) (ClassStoreM × Option ClassRec)) :=
        if parent.firstChildId = classId then
          let parentUpd := { parent with firstChildId := c.nextChildId }
          let s2 :=
            { s1 with cache := fun k => if k = parent.id then some parentUpd else s1.cache k }
          let s3 := { s2 with cache := fun k => if k = parent.id then none else s2.cache k }
          some (.ok ({ s3 with changed := Fabric_IdSet_add e s3.changed parent.id }, none))
        else
          match Fabric_ClassStore_get_class e s1 parent.firstChildId with
          | (.error st, s2) => some (.error (st, s2))
          | (.ok firstChild, s2) =>
            match deleteClassFindPred e classId fuel s2 firstChild with
            | none => none
            | some (.error st, s3) => some (.error (st, s3))
            | some (.ok pred, s3) =>
              let predUpd := { pred with nextChildId := classId }
              let s4 :=
                { s3 with cache := fun k => if k = pred.id then some predUpd else s3.cache k }
              some (.ok ({ s4 with changed := Fabric_IdSet_add e s4.changed pred.id }, some predUpd))
      match afterHier with
      | none => none
      | some (.error r) => some r
      | some (.ok (s5, _)) =>
        let s6 := { s5 with changed := Fabric_IdSet_add e s5.changed classId }
        let s7 := { s6 with cache := fun k => if k = classId then some c else s6.cache k }
        let s8 := { s7 with changed := Fabric_IdSet_add e s7.changed classId }
        let s9 := classStoreFreeCached s8 c
        some (FABRIC_OK, { s9 with numClasses := (s9.numClasses + 2 ^ 16 - 1) % 2 ^ 16 })

/-- Loop body of Fabric_ClassStore_flush (ClassStore.c:101-125) for one dirty
id that is within bounds: serialize the cached record to its slot offset, then
remove the id from the changed set. -/
def flushWriteOne (e : Endian) (s : ClassStoreM) (changedId : Nat) : ClassStoreM :=
  match s.cache changedId with
  | none => s
  | some c =>
    { s with
      file :=
        Fabric_Graph_write_bytes s.file (Fabric_Class_load_bytes e c)
          (Fabric_ClassStore__get_id_offset s changedId)
      changed := Fabric_IdSet_remove e s.changed changedId }

/-- Flush loop of Fabric_ClassStore_flush (ClassStore.c:101-125) over the array
of dirty ids.  A dirty id above max_id aborts the whole flush with
FABRIC_CLASSSTORE_NEEDS_RESIZE (`Except.error`), leaving the ids already
serialized removed from the changed set.  A dirty id missing from the cache
would make the source dereference NULL (`none`; the source comments that a
changed class MUST be in the cache). -/
def flushLoop (e : Endian) (maxId : Nat) :
    List Nat → ClassStoreM → Option (Except (Nat × ClassStoreM) ClassStoreM)
  | [], s => some (.ok s)
  | changedId :: rest, s =>
    if changedId > maxId then some (.error (FABRIC_CLASSSTORE_NEEDS_RESIZE, s))
    else
      match s.cache changedId with
      | none => none
      | some _ => flushLoop e maxId rest (flushWriteOne e s changedId)

/-- The value `uint16_t max_id = (self->size - FABRIC_CLASSSTORE_HEADER_SIZE) /
FABRIC_CLASS_STORAGE_SIZE;` computed by Fabric_ClassStore_flush
(ClassStore.c:96), in uint32 subtraction and uint16 truncation. -/
def classStoreMaxId (s : ClassStoreM) : Nat :=
  (s.size + 2 ^ 32 - FABRIC_CLASSSTORE_HEADER_SIZE) % 2 ^ 32 /
    FABRIC_CLASS_STORAGE_SIZE % 2 ^ 16

/-- State of the class store after the flush loop has serialized the ids of
`pre`, in order (each step is one in-bounds iteration of ClassStore.c:101-125). -/
def flushPrefix (e : Endian) (s : ClassStoreM) (pre : List Nat) : ClassStoreM :=
  pre.foldl (flushWriteOne e) s

/-- Embeds Fabric_ClassStore_flush (ClassStore.c:80-133).  An empty changed set
is a no-op.  Otherwise the dirty ids are taken in the order produced by
Fabric_IdSet_to_array, each in-bounds record is serialized and its id removed
from the set, and finally the store header is overwritten: the live count at
offset 0, the next-free id at offset 2, and — ClassStore.c:130 — the NEXT-free
id once more at offset 4, the slot of the last-free id (that line also passes
the type name `Graph` instead of the graph local as the first argument, which
does not compile as C; the embedding reads it as writing through the graph of
the store).  max_id is computed in uint32/uint16 arithmetic from the region size. -/
def Fabric_ClassStore_flush (e : Endian) (s : ClassStoreM) : Option (Nat × ClassStoreM) :=
  if Fabric_IdSet_is_empty s.changed then some (FABRIC_OK, s)
  else
    let changed_ids := Fabric_IdSet_to_array s.changed
    let max_id := classStoreMaxId s
    match flushLoop e max_id changed_ids s with
    | none => none
    | some (.error r) => some r
    | some (.ok s1) =>
      let f1 := Fabric_Graph_write_uint16 e s1.file s1.numClasses s1.offset
      let f2 := Fabric_Graph_write_uint16 e f1 s1.nextFreeId (s1.offset + 2)
      let f3 := Fabric_Graph_write_uint16 e f2 s1.nextFreeId (s1.offset + 4)
      some (FABRIC_OK, { s1 with file := f3 })

/-! The graph header (Graph.c, Fabric.c). -/

/-- Embeds FABRIC_HEADER_STRING (Fabric.c:20-22): the 16 bytes
fabricdb v0.1 followed by three NULs. -/
def FABRIC_HEADER_STRING : List Nat :=
  [102, 97, 98, 114, 105, 99, 100, 98, 32, 118, 48, 46, 49, 0, 0, 0]

/-- Embeds the header fields of `struct Graph` (Graph.c:67-81) together with
the initialized class store. -/
structure GraphM where
  fabric_header_string : List Nat
  application_header_string : List Nat
  fabric_version_number : Nat
  application_version_number : Nat
  file_change_counter : Nat
  class_store_offset : Nat
  label_store_offset : Nat
  vertex_store_offset : Nat
  edge_store_offset : Nat
  property_store_offset : Nat
  text_store_offset : Nat
  text_block_size : Nat
  index_store_offset : Nat
  index_page_size : Nat
  index_page_count : Nat
  class_store : ClassStoreM

/-- Embeds Fabric_Graph_init (Graph.c:279-323).  The sequential current-position
reads land at the fixed offsets of Graph.c:41-55.  Every header field —
including the 16 signature bytes, which the struct comment says are used to
verify the file type — is read into the graph, the stores are initialized, and
the function returns 0 (success) WITHOUT comparing the signature against
FABRIC_HEADER_STRING.  The label, vertex, edge, property, text and index store
initializers only compute region sizes and allocate empty caches
(LabelStore.c:47-60, IndexStore.c:38-40, and so on), so they are represented
here by the class store initialization the claims exercise. -/
def Fabric_Graph_init (e : Endian) (f : ByteFile) : Int × GraphM :=
  let classOff := Fabric_Graph_read_uint32 e f 44
  let labelOff := Fabric_Graph_read_uint32 e f 48
  (0,
    { fabric_header_string := Fabric_Graph_read_bytes f 16 0
      application_header_string := Fabric_Graph_read_bytes f 16 16
      fabric_version_number := Fabric_Graph_read_uint32 e f 32
      application_version_number := Fabric_Graph_read_uint32 e f 36
      file_change_counter := Fabric_Graph_read_uint32 e f 40
      class_store_offset := classOff
      label_store_offset := labelOff
      vertex_store_offset := Fabric_Graph_read_uint32 e f 52
      edge_store_offset := Fabric_Graph_read_uint32 e f 56
      property_store_offset := Fabric_Graph_read_uint32 e f 60
      text_store_offset := Fabric_Graph_read_uint32 e f 64
      text_block_size := Fabric_Graph_read_uint32 e f 68
      index_store_offset := Fabric_Graph_read_uint32 e f 72
      index_page_size := Fabric_Graph_read_uint32 e f 76
      index_page_count := Fabric_Graph_read_uint32 e f 80
      class_store := Fabric_ClassStore_init e f classOff labelOff })

/-! Free-list protocol of the class store.  An allocation is
Fabric_ClassStore__next_id; a deletion frees an id through the tail of
Fabric_ClassStore_delete_class (cache insertion at ClassStore.c:441 followed by
Fabric_ClassStore__add_free_id at ClassStore.c:453), embedded as
classStoreFreeCached.  The definitions below run an arbitrary sequence of
these two operations and track, as a ghost list, the stack of currently freed
ids (most recently freed first). -/

/-- One free-list operation: an allocation, or the deletion of the class whose
record is `c`. -/
inductive FLOp where
  | alloc
  | free (c : ClassRec)

/-- Link value the allocator would follow for id `x`: the parent-id field of
the cached record when `x` is cached, otherwise the uint16 read from the
parent-field slot on disk — exactly the two link sources of
Fabric_ClassStore__next_id (ClassStore.c:146-155). -/
def effLink (e : Endian) (s : ClassStoreM) (x : Nat) : Nat :=
  match s.cache x with
  | some c => c.parentId
  | none => Fabric_Graph_read_uint16 e s.file (Fabric_ClassStore__get_id_offset s x + 4)

/-- Chain of ids obtained by following `link` from `x` for `n` steps, the
starting id included (n + 1 entries in total). -/
def iterLink (link : Nat → Nat) (x : Nat) : Nat → List Nat
  | 0 => [x]
  | n + 1 => x :: iterLink link (link x) n

/-- Runs a sequence of free-list operations, carrying the ghost stack of
currently freed ids: an allocation pops the head (Fabric_ClassStore__next_id
returns it), a deletion pushes the freed id. -/
def flRun (e : Endian) : ClassStoreM → List Nat → List FLOp → ClassStoreM × List Nat
  | s, freed, [] => (s, freed)
  | s, freed, .alloc :: ops => flRun e (Fabric_ClassStore__next_id e s).2 freed.tail ops
  | s, freed, .free c :: ops => flRun e (classStoreFreeCached s c) (c.id :: freed) ops

/-- Well-formedness of an operation sequence: every deletion frees a live id —
one that is not already on the free stack and was allocated before the bump
pointer.  This is what Fabric_ClassStore_delete_class guarantees at its call
site via the in-use check (label id nonzero) on a well-formed store. -/
def flValid (e : Endian) : ClassStoreM → List Nat → List FLOp → Bool
  | _, _, [] => true
  | s, freed, .alloc :: ops => flValid e (Fabric_ClassStore__next_id e s).2 freed.tail ops
  | s, freed, .free c :: ops =>
    decide (c.id ∉ freed) && decide (c.id < s.lastFreeId) &&
      flValid e (classStoreFreeCached s c) (c.id :: freed) ops

/-- Free-list invariant of the class store: following the threaded links from
next_free_id yields exactly the freed ids (most recently freed first) and then
last_free_id; the freed ids are distinct, each is below the bump pointer, and
each has its tombstone record in the cache (as delete_class leaves it). -/
def FreeInv (e : Endian) (s : ClassStoreM) (freed : List Nat) : Prop :=
  iterLink (effLink e s) s.nextFreeId freed.length = freed ++ [s.lastFreeId] ∧
    freed.Nodup ∧ ∀ f ∈ freed, f < s.lastFreeId ∧ (s.cache f).isSome

/-- Sibling chain as stored in the cache: follow next-sibling ids from `start`
until 0, bounded by fuel. -/
def siblingChain (s : ClassStoreM) : Nat → Nat → List Nat
  | 0, _ => []
  | fuel + 1, start =>
    if start = 0 then []
    else
      start ::
        siblingChain s fuel
          (match s.cache start with
           | some c => c.nextChildId
           | none => 0)

/-! Concrete stores and records used by the witness and counterexample
theorems below. -/

/-- The class record of spec section 8, scenario S2: label 9, parent 1, first
child 4, next sibling 0, first index 16, count 35, concrete, incrementer 37;
its own id is 2. -/
def specS2Rec : ClassRec :=
  { id := 2, labelId := 9, parentId := 1, firstChildId := 4, nextChildId := 0,
    firstIndexId := 16, count := 35, isAbstract := 0, incrementer := 37 }

/-- A finite cache built from an association list. -/
def cacheOfList (l : List (Nat × ClassRec)) : Nat → Option ClassRec :=
  fun k => (l.find? (fun p => p.1 == k)).map (·.2)

/-- Root class record for the deletion examples: id 1, first child 3. -/
def rootRec : ClassRec :=
  { id := 1, labelId := 7, parentId := 1, firstChildId := 3, nextChildId := 0,
    firstIndexId := 0, count := 0, isAbstract := 0, incrementer := 1 }

/-- Sibling record for the deletion example: id 3, next sibling 2. -/
def sibRec3 : ClassRec :=
  { id := 3, labelId := 8, parentId := 1, firstChildId := 0, nextChildId := 2,
    firstIndexId := 0, count := 0, isAbstract := 0, incrementer := 1 }

/-- Deletion target for the C1 example: id 2, live, childless, memberless, and
not the first child of its parent (the chain is 1 → 3 → 2). -/
def delRec2 : ClassRec :=
  { id := 2, labelId := 9, parentId := 1, firstChildId := 0, nextChildId := 0,
    firstIndexId := 0, count := 0, isAbstract := 0, incrementer := 1 }

/-- Class store for the C1 deletion example: classes 1 (root), 3 and 2, with
the sibling chain of class 1 being 3 then 2. -/
def storeC1 : ClassStoreM :=
  { offset := 0, numClasses := 3, nextFreeId := 4, lastFreeId := 4, size := 1000,
    cache := cacheOfList [(1, rootRec), (2, delRec2), (3, sibRec3)],
    changed := idSetNew 32, file := zeroFile }

/-- A live record with neither children nor members, in a store, used by the
C4 and C10 witnesses. -/
def liveChildRec : ClassRec :=
  { id := 4, labelId := 11, parentId := 1, firstChildId := 6, nextChildId := 0,
    firstIndexId := 0, count := 0, isAbstract := 0, incrementer := 1 }

/-- A live childless record with three members, used by the C4 witness. -/
def liveMemberRec : ClassRec :=
  { id := 5, labelId := 12, parentId := 1, firstChildId := 0, nextChildId := 0,
    firstIndexId := 0, count := 3, isAbstract := 0, incrementer := 1 }

/-- A dead record (label id 0, a freed slot), used by the C10 witness. -/
def deadRec : ClassRec :=
  { id := 6, labelId := 0, parentId := 0, firstChildId := 0, nextChildId := 0,
    firstIndexId := 0, count := 0, isAbstract := 0, incrementer := 0 }

/-- Record with id 1 used by the flush examples. -/
def flushRec1 : ClassRec :=
  { id := 1, labelId := 5, parentId := 0, firstChildId := 0, nextChildId := 0,
    firstIndexId := 0, count := 0, isAbstract := 0, incrementer := 1 }

/-- Record with id 40 used by the flush resize example. -/
def flushRec40 : ClassRec :=
  { id := 40, labelId := 6, parentId := 0, firstChildId := 0, nextChildId := 0,
    firstIndexId := 0, count := 0, isAbstract := 0, incrementer := 1 }

/-- Class store for the C7 example: one dirty id, counters
num_classes = 1, next_free_id = 2, last_free_id = 5. -/
def storeC7 : ClassStoreM :=
  { offset := 0, numClasses := 1, nextFreeId := 2, lastFreeId := 5, size := 1000,
    cache := cacheOfList [(1, flushRec1)],
    changed := Fabric_IdSet_add .big (idSetNew 32) 1, file := zeroFile }

/-- Class store for the C8 example: region size 27 gives max_id 1, and the
dirty set holds the ids 1 and 40, added in that order (their hash slots keep
that iteration order under either host byte order). -/
def storeC8 (e : Endian) : ClassStoreM :=
  { offset := 0, numClasses := 2, nextFreeId := 41, lastFreeId := 41, size := 27,
    cache := cacheOfList [(1, flushRec1), (40, flushRec40)],
    changed := Fabric_IdSet_add e (Fabric_IdSet_add e (idSetNew 32) 1) 40, file := zeroFile }

/-- Fresh class store for the C2 witness: empty free list (both free ids 1),
empty cache. -/
def storeC2 : ClassStoreM :=
  { offset := 0, numClasses := 0, nextFreeId := 1, lastFreeId := 1, size := 1000,
    cache := fun _ => none, changed := idSetNew 32, file := zeroFile }

/-- A live record with a given id, used for the deletions of the C2 witness. -/
def mkLiveRec (i : Nat) : ClassRec :=
  { id := i, labelId := 10 + i, parentId := 1, firstChildId := 0, nextChildId := 0,
    firstIndexId := 0, count := 0, isAbstract := 0, incrementer := 1 }

/-- Operation sequence for the C2 witness: allocate ids 1, 2, 3, delete
classes 2 and 3, then allocate again (which must return 3, the most recently
freed id). -/
def opsC2 : List FLOp :=
  [.alloc, .alloc, .alloc, .free (mkLiveRec 2), .free (mkLiveRec 3), .alloc]

/-! Theorems settling the claims. -/

/-- C1.  The claim states that deleting a live, childless, memberless class
that is not the first child of its parent splices it out of the sibling chain
by pointing its predecessor at the next sibling of the deleted class.  The
code does not: with the chain 1 → 3 → 2 and class 2 deleted, the call succeeds
but the predecessor 3 still has next-sibling id 2 (ClassStore.c:426 writes
`class_id` itself, not the next sibling of the deleted class, which here is 0),
so the sibling chain of the parent is still [3, 2] and the deleted class
remains in the chain. -/
theorem C1_delete_class_clobbers_sibling_chain :
    (Fabric_ClassStore_delete_class .little 10 storeC1 delRec2).map
        (fun r =>
          (r.1, (r.2.cache 3).map (fun c => c.nextChildId),
            siblingChain r.2 10 (((r.2.cache 1).map (fun c => c.firstChildId)).getD 0))) =
      some (FABRIC_OK, some 2, [3, 2]) ∧
      delRec2.nextChildId = 0 ∧ delRec2.id = 2 ∧ (2 : Nat) ≠ 0 := by
  decide

/-- C3.  The claim states that creating a class whose name is already used by
a live class fails with FABRIC_DUPLICATE_CLASSNAME.  In the code the duplicate
branch is unreachable: Fabric_ClassStore_get_class_by_name always returns NULL
with status FABRIC_OK (the guard at ClassStore.c:230 compares the status
POINTER against FABRIC_OK, and the class-name index is a stub), so
Fabric_ClassStore_create_class always returns NULL with status FABRIC_OK —
never FABRIC_DUPLICATE_CLASSNAME — and leaves the store untouched, for every
store, parent, name and abstractness flag. -/
theorem C3_create_class_never_reports_duplicate (s : ClassStoreM) (extends_ : ClassRec)
    (name : Nat) (isAbstract : Bool) :
    Fabric_ClassStore_create_class s extends_ name isAbstract = (none, FABRIC_OK, s) ∧
      FABRIC_OK ≠ FABRIC_DUPLICATE_CLASSNAME := by
  exact ⟨rfl, by decide⟩

/-- C4.  Fabric_ClassStore_delete_class rejects a live class with a nonzero
first-child id with FABRIC_CANT_DELETE_CLASS_HAS_CHILDREN, and a live
childless class with a nonzero member count with
FABRIC_CANT_DELETE_CLASS_HAS_MEMBERS; in both cases the returned store is the
argument store itself, unchanged. -/
theorem C4_delete_class_rejects_children_and_members (e : Endian) (fuel : Nat)
    (s : ClassStoreM) (c : ClassRec) :
    (c.labelId ≠ 0 → c.firstChildId ≠ 0 →
        Fabric_ClassStore_delete_class e fuel s c =
          some (FABRIC_CANT_DELETE_CLASS_HAS_CHILDREN, s)) ∧
      (c.labelId ≠ 0 → c.firstChildId = 0 → c.count ≠ 0 →
        Fabric_ClassStore_delete_class e fuel s c =
          some (FABRIC_CANT_DELETE_CLASS_HAS_MEMBERS, s)) := by
  constructor
  · intro hlab hchild
    simp [Fabric_ClassStore_delete_class, hlab, hchild]
  · intro hlab hchild hcount
    simp [Fabric_ClassStore_delete_class, hlab, hchild, Nat.pos_of_ne_zero hcount]

/-- Witness for C4 at concrete inputs: a live class with first child 6 is
rejected as having children, and a live childless class with count 3 is
rejected as having members, each leaving the store unchanged. -/
theorem C4_delete_class_rejects_children_and_members_witness :
    Fabric_ClassStore_delete_class .little 5 storeC1 liveChildRec =
        some (FABRIC_CANT_DELETE_CLASS_HAS_CHILDREN, storeC1) ∧
      Fabric_ClassStore_delete_class .little 5 storeC1 liveMemberRec =
        some (FABRIC_CANT_DELETE_CLASS_HAS_MEMBERS, storeC1) :=
  ⟨(C4_delete_class_rejects_children_and_members .little 5 storeC1 liveChildRec).1
      (by decide) (by decide),
    (C4_delete_class_rejects_children_and_members .little 5 storeC1 liveMemberRec).2
      (by decide) (by decide) (by decide)⟩

/-- C5.  The claim states decode(encode(r)) = r with the big-endian layout of
spec section 3.  On a big-endian host both hold for the S2 record, but
Fabric_Class_load_bytes stores raw host-order bytes (Class.c:134-143, no
htobe conversion), so on a little-endian host the encoding starts
09 00 00 00 instead of 00 00 00 09 and decoding (which always interprets the
bytes big-endian) returns a record with every multi-byte field byte-swapped,
not r. -/
theorem C5_class_codec_not_big_endian_on_little_hosts :
    Fabric_Class_load_bytes .big specS2Rec =
        [0, 0, 0, 9, 0, 1, 0, 4, 0, 0, 0, 16, 0, 0, 0, 35, 0, 0, 0, 0, 37] ∧
      Fabric_Class_init .big 2 (Fabric_Class_load_bytes .big specS2Rec) = .ok specS2Rec ∧
      (Fabric_Class_load_bytes .little specS2Rec).take 4 = [9, 0, 0, 0] ∧
      Fabric_Class_init .little 2 (Fabric_Class_load_bytes .little specS2Rec) =
        .ok { specS2Rec with
              labelId := 0x09000000, parentId := 0x0100, firstChildId := 0x0400,
              firstIndexId := 0x1000, count := 0x23000000, incrementer := 0x25000000 } ∧
      (0x09000000 : Nat) ≠ 9 := by
  exact ⟨by decide, rfl, by decide, rfl, by decide⟩

/-- C6.  The claim states the uint16 write/read pair round-trips regardless of
host byte order.  On a little-endian host it does not: write_uint16 converts
with htobe32 — the 32-bit swap — and truncates the result to 16 bits
(Graph.c:142), which is 0 for every 16-bit value, so writing 1 stores the
bytes 00 00 and reading back yields 0.  On a big-endian host the uint16 pair
round-trips, and the uint32 pair round-trips on both hosts. -/
theorem C6_write_uint16_loses_value_on_little_hosts :
    Fabric_Graph_read_uint16 .little (Fabric_Graph_write_uint16 .little zeroFile 1 5) 5 = 0 ∧
      (0 : Nat) ≠ 1 ∧
      Fabric_Graph_read_uint16 .big (Fabric_Graph_write_uint16 .big zeroFile 4660 7) 7 = 4660 ∧
      Fabric_Graph_read_uint32 .little
          (Fabric_Graph_write_uint32 .little zeroFile 70000 3) 3 = 70000 ∧
      Fabric_Graph_read_uint32 .big (Fabric_Graph_write_uint32 .big zeroFile 70000 3) 3 =
        70000 := by
  decide

/-- C7.  The claim states that after a flush the counters header holds
num_classes, next_free_id and last_free_id, so a subsequent init reads them
back.  The code writes next_free_id into BOTH the second and the third header
field (ClassStore.c:130): flushing a store with counters (1, 2, 5) on a
big-endian host (so that the separate uint16 endianness bug of C6 does not
interfere) and re-initializing from the resulting file yields last_free_id 2,
not the 5 the store held at flush time. -/
theorem C7_flush_header_stores_next_free_id_twice :
    (Fabric_ClassStore_flush .big storeC7).map
        (fun r =>
          (r.1, (Fabric_ClassStore_init .big r.2.file 0 1000).numClasses,
            (Fabric_ClassStore_init .big r.2.file 0 1000).nextFreeId,
            (Fabric_ClassStore_init .big r.2.file 0 1000).lastFreeId)) =
      some (FABRIC_OK, 1, 2, 2) ∧ storeC7.lastFreeId = 5 ∧ (2 : Nat) ≠ 5 := by
  decide

/-- C8 counterexample.  The claim states that when flush returns
FABRIC_CLASSSTORE_NEEDS_RESIZE the dirty set is the same set as before the
call.  With dirty ids 1 and 40 and max_id 1 (region size 27), flush first
serializes id 1 and removes it from the dirty set, then aborts on id 40: the
flush returns needs-resize but id 1 is no longer dirty, under either host byte
order. -/
theorem C8_flush_removes_written_ids_counterexample :
    ((Fabric_ClassStore_flush .little (storeC8 .little)).map
          (fun r => (r.1, Fabric_IdSet_has .little r.2.changed 1)) =
        some (FABRIC_CLASSSTORE_NEEDS_RESIZE, false) ∧
      Fabric_IdSet_has .little (storeC8 .little).changed 1 = true) ∧
      ((Fabric_ClassStore_flush .big (storeC8 .big)).map
          (fun r => (r.1, Fabric_IdSet_has .big r.2.changed 1)) =
        some (FABRIC_CLASSSTORE_NEEDS_RESIZE, false) ∧
      Fabric_IdSet_has .big (storeC8 .big).changed 1 = true) := by
  decide

/-- C9.  The claim states that loading a file whose first 16 bytes differ from
the fabric signature is rejected.  Fabric_Graph_init never compares the
signature: loading the all-zero file returns 0 (success, per the function
contract "0 on success; less than 0 on error") and fills the graph with the
zero signature, which differs from FABRIC_HEADER_STRING. -/
theorem C9_graph_init_accepts_any_signature :
    (Fabric_Graph_init .little zeroFile).1 = 0 ∧
      (Fabric_Graph_init .little zeroFile).2.fabric_header_string = List.replicate 16 0 ∧
      List.replicate 16 0 ≠ FABRIC_HEADER_STRING := by
  decide

/-- C10.  Calling Fabric_ClassStore_delete_class on a record that is not in
use (label id 0, a freed slot) returns FABRIC_OK — not an error — and returns
the store itself, completely unchanged. -/
theorem C10_delete_class_not_in_use_is_silent_success (e : Endian) (fuel : Nat)
    (s : ClassStoreM) (c : ClassRec) (h : c.labelId = 0) :
    Fabric_ClassStore_delete_class e fuel s c = some (FABRIC_OK, s) := by
  simp [Fabric_ClassStore_delete_class, h]

/-- Witness for C10 at a concrete input: deleting the dead record of slot 6
from the concrete store reports success and changes nothing. -/
theorem C10_delete_class_not_in_use_is_silent_success_witness :
    Fabric_ClassStore_delete_class .little 5 storeC1 deadRec = some (FABRIC_OK, storeC1) :=
  C10_delete_class_not_in_use_is_silent_success .little 5 storeC1 deadRec (by decide)

/-! Helper lemmas for the free-list invariant (C2). -/

/-- Chains have one more entry than their fuel. -/
theorem iterLink_length (link : Nat → Nat) :
    ∀ (n : Nat) (x : Nat), (iterLink link x n).length = n + 1 := by
  intro n
  induction n with
  | zero => intro x; rfl
  | succ n ih => intro x; simp [iterLink, ih]

/-- Updating the link of an id that is not among the freed ids of a chain does
not disturb the chain: the walk only dereferences the freed ids themselves. -/
theorem iterLink_update_chain (a v : Nat) :
    ∀ (freed : List Nat) (link : Nat → Nat) (x t : Nat),
      iterLink link x freed.length = freed ++ [t] → a ∉ freed →
      iterLink (fun y => if y = a then v else link y) x freed.length = freed ++ [t] := by
  intro freed
  induction freed with
  | nil => intro link x t h _; simpa [iterLink] using h
  | cons f rest ih =>
    intro link x t h hnot
    have h2 : x :: iterLink link (link x) rest.length = f :: (rest ++ [t]) := by
      simpa [iterLink] using h
    injection h2 with hx1 hx2
    have hne : f ≠ a := fun hfa => hnot (hfa ▸ List.mem_cons_self f rest)
    have hrest : a ∉ rest := fun hm => hnot (List.mem_cons_of_mem f hm)
    have step : (fun y => if y = a then v else link y) x = link x := by
      rw [hx1]; simp [hne]
    show x ::
        iterLink (fun y => if y = a then v else link y)
          ((fun y => if y = a then v else link y) x) rest.length =
      (f :: rest) ++ [t]
    rw [step, List.cons_append, hx1]
    rw [hx1] at hx2
    exact congrArg (f :: ·) (ih link (link f) t hx2 hrest)

/-- The effective link function after freeing a cached record: the freed id now
links to the old next-free id, all other links are unchanged. -/
theorem effLink_freeCached (e : Endian) (s : ClassStoreM) (c : ClassRec) :
    effLink e (classStoreFreeCached s c) =
      fun y => if y = c.id then s.nextFreeId else effLink e s y := by
  funext y
  by_cases hy : y = c.id
  · simp [effLink, classStoreFreeCached, hy]
  · simp only [effLink, classStoreFreeCached, hy, if_neg hy]
    rfl

/-- Allocation under the free-list invariant: the returned id is the head of
the freed stack (or the bump pointer when the stack is empty), the invariant
holds afterwards for the tail, and the empty-stack case increments both uint16
counters. -/
theorem freeInv_alloc (e : Endian) {s : ClassStoreM} {freed : List Nat}
    (h : FreeInv e s freed) :
    FreeInv e (Fabric_ClassStore__next_id e s).2 freed.tail ∧
      (Fabric_ClassStore__next_id e s).1 = freed.headD s.lastFreeId ∧
      (freed = [] →
        (Fabric_ClassStore__next_id e s).2.nextFreeId = (s.nextFreeId + 1) % 2 ^ 16 ∧
          (Fabric_ClassStore__next_id e s).2.lastFreeId = (s.lastFreeId + 1) % 2 ^ 16) := by
  obtain ⟨hchain, hnd, hball⟩ := h
  cases freed with
  | nil =>
    have hnl : s.nextFreeId = s.lastFreeId := by simpa [iterLink] using hchain
    refine ⟨?_, ?_, ?_⟩
    · simp [Fabric_ClassStore__next_id, hnl, FreeInv, iterLink]
    · simp [Fabric_ClassStore__next_id, hnl]
    · intro _
      simp [Fabric_ClassStore__next_id, hnl]
  | cons f rest =>
    have hx : s.nextFreeId = f ∧
        iterLink (effLink e s) (effLink e s s.nextFreeId) rest.length =
          rest ++ [s.lastFreeId] := by
      simpa [iterLink] using hchain
    obtain ⟨hx1, hx2⟩ := hx
    have hf := hball f (List.mem_cons_self f rest)
    have hne : s.nextFreeId ≠ s.lastFreeId := by
      rw [hx1]; exact Nat.ne_of_lt hf.1
    obtain ⟨c, hc⟩ := Option.isSome_iff_exists.mp (hx1 ▸ hf.2)
    have hres : Fabric_ClassStore__next_id e s =
        (s.nextFreeId, { s with nextFreeId := c.parentId }) := by
      simp [Fabric_ClassStore__next_id, hne, hc]
    have hlink : effLink e s s.nextFreeId = c.parentId := by
      simp [effLink, hc]
    refine ⟨?_, ?_, ?_⟩
    · rw [hres]
      refine ⟨?_, hnd.of_cons, ?_⟩
      · show iterLink (effLink e { s with nextFreeId := c.parentId }) c.parentId
            rest.length = rest ++ [s.lastFreeId]
        have heq : effLink e { s with nextFreeId := c.parentId } = effLink e s := rfl
        rw [heq, ← hlink, hx2]
      · intro g hg
        exact hball g (List.mem_cons_of_mem f hg)
    · rw [hres, hx1]; rfl
    · intro hcontra; cases hcontra


/-- Freeing a live id (not already on the free stack, allocated before the
bump pointer) preserves the free-list invariant and pushes the id on the
stack. -/
theorem freeInv_free (e : Endian) {s : ClassStoreM} {freed : List Nat} {c : ClassRec}
    (h : FreeInv e s freed) (hmem : c.id ∉ freed) (hlt : c.id < s.lastFreeId) :
    FreeInv e (classStoreFreeCached s c) (c.id :: freed) := by
  obtain ⟨hchain, hnd, hball⟩ := h
  refine ⟨?_, List.nodup_cons.mpr ⟨hmem, hnd⟩, ?_⟩
  · show iterLink (effLink e (classStoreFreeCached s c)) (classStoreFreeCached s c).nextFreeId
        (freed.length + 1) = (c.id :: freed) ++ [(classStoreFreeCached s c).lastFreeId]
    have hnext : (classStoreFreeCached s c).nextFreeId = c.id := rfl
    have hlast : (classStoreFreeCached s c).lastFreeId = s.lastFreeId := rfl
    rw [hnext, hlast, effLink_freeCached]
    show c.id ::
        iterLink (fun y => if y = c.id then s.nextFreeId else effLink e s y)
          (if c.id = c.id then s.nextFreeId else effLink e s c.id) freed.length =
      c.id :: (freed ++ [s.lastFreeId])
    rw [if_pos rfl]
    exact congrArg (c.id :: ·)
      (iterLink_update_chain c.id s.nextFreeId freed (effLink e s) s.nextFreeId
        s.lastFreeId hchain hmem)
  · intro f hf
    rcases List.mem_cons.mp hf with hf1 | hf2
    · subst hf1
      refine ⟨hlt, ?_⟩
      simp [classStoreFreeCached]
    · refine ⟨(hball f hf2).1, ?_⟩
      by_cases hfc : f = c.id
      · simp [classStoreFreeCached, hfc]
      · have : (classStoreFreeCached s c).cache f = s.cache f := by
          simp [classStoreFreeCached, hfc]
        rw [this]
        exact (hball f hf2).2

/-- Running any well-formed sequence of allocations and deletions preserves
the free-list invariant with the ghost stack of currently freed ids. -/
theorem flRun_inv (e : Endian) :
    ∀ (ops : List FLOp) (s : ClassStoreM) (freed : List Nat),
      FreeInv e s freed → flValid e s freed ops = true →
      FreeInv e (flRun e s freed ops).1 (flRun e s freed ops).2 := by
  intro ops
  induction ops with
  | nil => intro s freed h _; exact h
  | cons op ops ih =>
    intro s freed h hvalid
    cases op with
    | alloc =>
      have hv : flValid e (Fabric_ClassStore__next_id e s).2 freed.tail ops = true := hvalid
      exact ih _ _ (freeInv_alloc e h).1 hv
    | free c =>
      have hv := hvalid
      simp only [flValid, Bool.and_eq_true, decide_eq_true_eq] at hv
      exact ih _ _ (freeInv_free e h hv.1.1 hv.1.2) hv.2

/-- C2.  Starting from a fresh store (next_free_id = last_free_id, the empty
free list) and running any well-formed sequence of allocations
(Fabric_ClassStore__next_id) and deletions (the cache insertion and
Fabric_ClassStore__add_free_id performed by Fabric_ClassStore_delete_class):
(1) following the links threaded through the parent-id field of dead records,
starting at next_free_id, is a finite chain that ends at last_free_id and
whose entries before the end are exactly the currently freed ids in LIFO order
of deletion (the ghost stack of flRun);
(2) when the chain is nonempty, allocation pops and returns its head;
(3) when the chain is empty (next_free_id = last_free_id), allocation returns
last_free_id and increments both uint16 counters. -/
theorem C2_free_list_invariant (e : Endian) (s0 : ClassStoreM) (ops : List FLOp)
    (hfresh : s0.nextFreeId = s0.lastFreeId)
    (hvalid : flValid e s0 [] ops = true) :
    iterLink (effLink e (flRun e s0 [] ops).1) (flRun e s0 [] ops).1.nextFreeId
        (flRun e s0 [] ops).2.length =
      (flRun e s0 [] ops).2 ++ [(flRun e s0 [] ops).1.lastFreeId] ∧
      ((flRun e s0 [] ops).2 ≠ [] →
        (Fabric_ClassStore__next_id e (flRun e s0 [] ops).1).1 =
          (flRun e s0 [] ops).2.headD 0) ∧
      ((flRun e s0 [] ops).2 = [] →
        (Fabric_ClassStore__next_id e (flRun e s0 [] ops).1).1 =
            (flRun e s0 [] ops).1.lastFreeId ∧
          (Fabric_ClassStore__next_id e (flRun e s0 [] ops).1).2.nextFreeId =
            ((flRun e s0 [] ops).1.nextFreeId + 1) % 2 ^ 16 ∧
          (Fabric_ClassStore__next_id e (flRun e s0 [] ops).1).2.lastFreeId =
            ((flRun e s0 [] ops).1.lastFreeId + 1) % 2 ^ 16) := by
  have h0 : FreeInv e s0 [] := by
    refine ⟨?_, List.nodup_nil, by intro f hf; cases hf⟩
    simp [iterLink, hfresh]
  have hinv := flRun_inv e ops s0 [] h0 hvalid
  refine ⟨hinv.1, ?_, ?_⟩
  · intro hne
    obtain ⟨f, rest, hfr⟩ := List.exists_cons_of_ne_nil hne
    have := (freeInv_alloc e hinv).2.1
    rw [hfr] at this ⊢
    simpa using this
  · intro hnil
    rw [hnil] at hinv
    have halloc := freeInv_alloc e hinv
    refine ⟨?_, (halloc.2.2 rfl).1, (halloc.2.2 rfl).2⟩
    simpa using halloc.2.1

/-- Witness for C2: from the fresh store, allocate ids 1, 2, 3, delete classes
2 then 3, and allocate once more.  The ghost stack after the run is [2] (3 was
reallocated), the threaded chain from next_free_id is [2, 4] ending at the
bump pointer 4, and allocation would pop the head 2. -/
theorem C2_free_list_invariant_witness :
    (flRun .little storeC2 [] opsC2).2 = [2] ∧
      (flRun .little storeC2 [] opsC2).1.nextFreeId = 2 ∧
      (flRun .little storeC2 [] opsC2).1.lastFreeId = 4 ∧
      iterLink (effLink .little (flRun .little storeC2 [] opsC2).1)
          (flRun .little storeC2 [] opsC2).1.nextFreeId
          (flRun .little storeC2 [] opsC2).2.length =
        (flRun .little storeC2 [] opsC2).2 ++ [(flRun .little storeC2 [] opsC2).1.lastFreeId] ∧
      ((flRun .little storeC2 [] opsC2).2 ≠ [] →
        (Fabric_ClassStore__next_id .little (flRun .little storeC2 [] opsC2).1).1 =
          (flRun .little storeC2 [] opsC2).2.headD 0) :=
  ⟨by decide, by decide, by decide,
    (C2_free_list_invariant .little storeC2 opsC2 rfl (by decide)).1,
    (C2_free_list_invariant .little storeC2 opsC2 rfl (by decide)).2.1⟩

/-- One flush-loop step never touches the cache. -/
theorem flushWriteOne_cache (e : Endian) (s : ClassStoreM) (a : Nat) :
    (flushWriteOne e s a).cache = s.cache := by
  unfold flushWriteOne
  cases s.cache a <;> rfl

/-- One flush-loop step on a cached id removes exactly that id from the
changed set. -/
theorem flushWriteOne_changed (e : Endian) (s : ClassStoreM) (a : Nat) (c : ClassRec)
    (hc : s.cache a = some c) :
    (flushWriteOne e s a).changed = Fabric_IdSet_remove e s.changed a := by
  unfold flushWriteOne
  rw [hc]

/-- The flush loop on a dirty-id array whose prefix is in bounds and cached,
followed by an id above max_id, serializes exactly the prefix and then aborts
with FABRIC_CLASSSTORE_NEEDS_RESIZE. -/
theorem flushLoop_prefix (e : Endian) (maxId : Nat) :
    ∀ (pre : List Nat) (s : ClassStoreM) (id0 : Nat) (suf : List Nat),
      (∀ x ∈ pre, x ≤ maxId ∧ (s.cache x).isSome) → maxId < id0 →
      flushLoop e maxId (pre ++ id0 :: suf) s =
        some (.error (FABRIC_CLASSSTORE_NEEDS_RESIZE, flushPrefix e s pre)) := by
  intro pre
  induction pre with
  | nil =>
    intro s id0 suf _ hid0
    show flushLoop e maxId (id0 :: suf) s = some (.error (FABRIC_CLASSSTORE_NEEDS_RESIZE, s))
    unfold flushLoop
    rw [if_pos hid0]
  | cons a pre ih =>
    intro s id0 suf hpre hid0
    have ha := hpre a (List.mem_cons_self a pre)
    obtain ⟨c, hc⟩ := Option.isSome_iff_exists.mp ha.2
    show flushLoop e maxId (a :: (pre ++ id0 :: suf)) s =
      some (.error (FABRIC_CLASSSTORE_NEEDS_RESIZE, flushPrefix e s (a :: pre)))
    unfold flushLoop
    rw [if_neg (Nat.not_lt.mpr ha.1), hc]
    have hrest : ∀ x ∈ pre, x ≤ maxId ∧ ((flushWriteOne e s a).cache x).isSome := by
      intro x hx
      rw [flushWriteOne_cache]
      exact hpre x (List.mem_cons_of_mem a hx)
    exact ih (flushWriteOne e s a) id0 suf hrest hid0

/-- The changed set after serializing a cached prefix is the fold of
Fabric_IdSet_remove over the prefix. -/
theorem flushPrefix_changed (e : Endian) :
    ∀ (pre : List Nat) (s : ClassStoreM), (∀ x ∈ pre, (s.cache x).isSome) →
      (flushPrefix e s pre).changed =
        pre.foldl (fun t x => Fabric_IdSet_remove e t x) s.changed := by
  intro pre
  induction pre with
  | nil => intro s _; rfl
  | cons a pre ih =>
    intro s hpre
    obtain ⟨c, hc⟩ := Option.isSome_iff_exists.mp (hpre a (List.mem_cons_self a pre))
    have hrest : ∀ x ∈ pre, ((flushWriteOne e s a).cache x).isSome := by
      intro x hx
      rw [flushWriteOne_cache]
      exact hpre x (List.mem_cons_of_mem a hx)
    show (flushPrefix e (flushWriteOne e s a) pre).changed =
      pre.foldl (fun t x => Fabric_IdSet_remove e t x)
        (Fabric_IdSet_remove e s.changed a)
    rw [ih (flushWriteOne e s a) hrest, flushWriteOne_changed e s a c hc]

/-- C8 as amended.  When the dirty-id array (in the iteration order of
Fabric_IdSet_to_array) consists of an in-bounds cached prefix followed by an
id above max_id, Fabric_ClassStore_flush returns FABRIC_CLASSSTORE_NEEDS_RESIZE
and the dirty set afterwards is the original one with exactly the already
serialized prefix removed — the oversized id (and everything after it) is
still dirty, so the caller can grow the region and retry, but the set is NOT
the same set as before the call once the prefix is nonempty. -/
theorem C8_flush_dirty_set_after_needs_resize (e : Endian) (s : ClassStoreM)
    (pre suf : List Nat) (id0 : Nat)
    (hne : Fabric_IdSet_is_empty s.changed = false)
    (harr : Fabric_IdSet_to_array s.changed = pre ++ id0 :: suf)
    (hpre : ∀ x ∈ pre, x ≤ classStoreMaxId s ∧ (s.cache x).isSome)
    (hid0 : classStoreMaxId s < id0) :
    Fabric_ClassStore_flush e s =
        some (FABRIC_CLASSSTORE_NEEDS_RESIZE, flushPrefix e s pre) ∧
      (flushPrefix e s pre).changed =
        pre.foldl (fun t x => Fabric_IdSet_remove e t x) s.changed := by
  constructor
  · have hl := flushLoop_prefix e (classStoreMaxId s) pre s id0 suf hpre hid0
    unfold Fabric_ClassStore_flush
    rw [hne]
    show (match flushLoop e (classStoreMaxId s) (Fabric_IdSet_to_array s.changed) s with
      | none => none
      | some (.error r) => some r
      | some (.ok s1) =>
        let f1 := Fabric_Graph_write_uint16 e s1.file s1.numClasses s1.offset
        let f2 := Fabric_Graph_write_uint16 e f1 s1.nextFreeId (s1.offset + 2)
        let f3 := Fabric_Graph_write_uint16 e f2 s1.nextFreeId (s1.offset + 4)
        some (FABRIC_OK, { s1 with file := f3 })) =
      some (FABRIC_CLASSSTORE_NEEDS_RESIZE, flushPrefix e s pre)
    rw [harr, hl]
  · exact flushPrefix_changed e pre s fun x hx => (hpre x hx).2

/-- Witness for the amended C8 at the concrete store of the counterexample:
dirty ids iterate as [1, 40], max_id is 1, the flush aborts with needs-resize
after serializing id 1, and the dirty set afterwards is the original minus
id 1 (so id 40 is still dirty for the retry). -/
theorem C8_flush_dirty_set_after_needs_resize_witness :
    Fabric_ClassStore_flush .little (storeC8 .little) =
        some (FABRIC_CLASSSTORE_NEEDS_RESIZE, flushPrefix .little (storeC8 .little) [1]) ∧
      (flushPrefix .little (storeC8 .little) [1]).changed =
        [1].foldl (fun t x => Fabric_IdSet_remove .little t x) (storeC8 .little).changed :=
  C8_flush_dirty_set_after_needs_resize .little (storeC8 .little) [1] [] 40
    (by decide) (by decide) (by decide) (by decide)

end FabricDB
